import Mathlib

/-!
Verification development for the `first_glance` EDA reporting utility
(`report_functions.py`).

The source is a thin layer over pandas / matplotlib / seaborn.  We give a
shallow embedding: a pandas `DataFrame` loaded from CSV becomes an explicit
table of typed columns, pure helper functions are translated directly, and the
relevant semantics of the plotting-library calls (figure creation order, the
`squeeze=True` shape of the axes array returned by `plt.subplots`, the
empty-reduction failure of `sns.heatmap`, pandas `describe`'s object fallback)
are modelled explicitly.  Fallible operations return `Except`; the error
payload records how many matplotlib figures had already been created when the
exception was raised, so that "raised before any figure is created" is a
statable property.

Float values produced by the statistics code are idealised as exact rationals;
a sample standard deviation (whose float value is a square root) is carried
symbolically as `StatV.sqrtVal v` where `v` is the exact variance, and an
off-diagonal Pearson coefficient is carried symbolically as the list of valid
sample pairs it is computed from.  NaN-ness of every cell is modelled exactly.
-/

deriving instance DecidableEq for Except

namespace FirstGlance

/-- Column dtypes a `pd.read_csv` load can produce (no datetime parsing is
requested anywhere in the source). -/
inductive Dtype
  | int64
  | float64
  | obj
  | bool
deriving DecidableEq, Repr

/-- A single cell of a loaded table: missing, numeric, text, or boolean. -/
inductive Cell
  | na
  | num (q : ℚ)
  | str (s : String)
  | boolV (b : Bool)
deriving DecidableEq, Repr

/-- A named, dtyped pandas column. -/
structure Column where
  name : String
  dtype : Dtype
  vals : List Cell
deriving DecidableEq, Repr

/-- A pandas `DataFrame`: an explicit row count (`shape[0]`) together with the
ordered list of columns.  The row count is carried separately so that a frame
with zero columns still has a well-defined number of rows, exactly as in
pandas. -/
structure DataFrame where
  nrows : Nat
  cols : List Column
deriving DecidableEq, Repr

/-- Well-formedness of a frame as pandas guarantees it: every column holds one
value per row, and column names are unique. -/
def DataFrame.WF (df : DataFrame) : Prop :=
  (∀ c ∈ df.cols, c.vals.length = df.nrows) ∧ (df.cols.map Column.name).Nodup

instance (df : DataFrame) : Decidable df.WF := by
  unfold DataFrame.WF
  exact inferInstance

/-- The dtype test used throughout the source:
`data[column].dtypes == 'int64' or data[column].dtypes == 'float64'`. -/
def Column.isNumeric (c : Column) : Bool :=
  c.dtype == Dtype.int64 || c.dtype == Dtype.float64

/-- `numeric_data`: keep exactly the `int64`/`float64` columns, in the
original column order, with all rows (the rebuilt frame keeps the index). -/
def numeric_data (data : DataFrame) : DataFrame :=
  { nrows := data.nrows
  , cols := data.cols.filter Column.isNumeric }

/-- `non_numeric_data`: keep exactly the columns whose dtype is neither
`int64` nor `float64`, in the original column order, with all rows. -/
def non_numeric_data (data : DataFrame) : DataFrame :=
  { nrows := data.nrows
  , cols := data.cols.filter (fun c => !c.isNumeric) }

/-- A small concrete frame used to instantiate hypotheses: an integer column,
an all-missing float column (as `read_csv` produces for an empty column), and
a text column. -/
def mixedDf : DataFrame :=
  { nrows := 2
  , cols :=
      [ { name := "age", dtype := .int64, vals := [.num 30, .num 40] }
      , { name := "blank", dtype := .float64, vals := [.na, .na] }
      , { name := "city", dtype := .obj, vals := [.str "a", .str "b"] } ] }

/-- Python `str.capitalize`: the first character is uppercased and every
remaining character is lowercased. -/
def pyCapitalize (s : String) : String :=
  match s.toList with
  | [] => ""
  | c :: rest => String.mk (c.toUpper :: rest.map Char.toLower)

/-- One step of Python `str.title`: a letter that follows a non-letter is
uppercased, a letter that follows a letter is lowercased, other characters are
kept.  The boolean carries whether the previous character was a letter. -/
def titleStep (prevAlpha : Bool) (c : Char) : Bool × Char :=
  if c.isAlpha then (true, if prevAlpha then c.toLower else c.toUpper)
  else (false, c)

def titleChars : Bool → List Char → List Char
  | _, [] => []
  | prev, c :: rest =>
    (titleStep prev c).2 :: titleChars (titleStep prev c).1 rest

/-- Python `str.title`: uppercase the first letter of each word, lowercase the
other letters. -/
def pyTitle (s : String) : String := String.mk (titleChars false s.toList)

/-- Python exceptions the embedded code can raise, plus the two error names
the specification's taxonomy introduces.  `invalidConfigError` and
`insufficientDataError` are never produced by any code path: nothing in the
source defines or raises a custom exception. -/
inductive PyError
  | zeroDivisionError
  | valueError
  | indexError
  | typeError
  | invalidConfigError
  | insufficientDataError
deriving DecidableEq, Repr

/-- A raised Python exception together with the number of matplotlib figures
that had already been created when it was raised. -/
structure Raised where
  err : PyError
  figs : Nat
deriving DecidableEq, Repr

/-- Shape of the value `plt.subplots(nrows, ncols)` returns for the axes under
the default `squeeze=True`: a bare `Axes` for a 1×1 grid, a 1-D array when
exactly one of the dimensions is 1, and a 2-D array otherwise. -/
inductive AxesKind
  | scalar
  | oneD
  | twoD
deriving DecidableEq, Repr

def axesKind (nrows ncols : Int) : AxesKind :=
  if nrows = 1 ∧ ncols = 1 then .scalar
  else if nrows = 1 ∨ ncols = 1 then .oneD
  else .twoD

/-- One populated subplot cell: its row-major grid position, the source column
plotted there, whether a box/hist chart was actually drawn (the source draws
nothing for an unknown `plot_type` but still sets the title), and the title
text. -/
structure PlotCell where
  row : Nat
  col : Nat
  column : String
  chartDrawn : Bool
  title : String
deriving DecidableEq, Repr

/-- The fully rendered chart grid a successful `create_subplots` call shows. -/
structure Grid where
  nrows : Nat
  ncols : Nat
  populated : List PlotCell
  hidden : List (Nat × Nat)
  suptitle : String
deriving DecidableEq, Repr

/-- The numeric-column name list `create_subplots` recomputes (same filter as
`numeric_data`). -/
def numericColumnNames (data : DataFrame) : List String :=
  (data.cols.filter Column.isNumeric).map Column.name

/-- The grid built by the plotting loop (`axes[i // num_cols, i % num_cols]`,
one chart per numeric column with its `str.capitalize`d name as title), the
hide loop (`range(num_plots, num_rows * num_cols)` turned off), and the
`plt.suptitle` line (`"Boxplot"` for plot type `'boxplot'`, `"Histogram"`
otherwise). -/
def buildGrid (cols : List String) (plot_type : String) (r w : Nat) : Grid :=
  { nrows := r
  , ncols := w
  , populated := cols.enum.map (fun p =>
      { row := p.1 / w
      , col := p.1 % w
      , column := p.2
      , chartDrawn := plot_type == "boxplot" || plot_type == "histplot"
      , title := pyCapitalize p.2 })
  , hidden := ((List.range (r * w)).drop cols.length).map
      (fun i => (i / w, i % w))
  , suptitle :=
      (if plot_type = "boxplot" then "Boxplot" else "Histogram") ++ " Analysis" }

/-- `create_subplots`, line by line:
* `num_plots` = number of `int64`/`float64` columns;
* `num_rows = (num_plots + num_cols - 1) // num_cols` — Python floor division,
  which raises `ZeroDivisionError` when `num_cols = 0`, before any figure
  exists;
* `plt.subplots(num_rows, num_cols)` first creates a figure and then raises
  `ValueError` from grid validation if either dimension is not positive;
* the plotting loop indexes `axes[row, col]`; under `squeeze=True` that
  two-index access raises `TypeError` on a bare `Axes` (1×1 grid) and
  `IndexError` on a 1-D axes array (single row or single column), at the very
  first iteration, before any chart or title is produced;
* otherwise every numeric column is placed in row-major order with its
  `str.capitalize`d name as subplot title, the trailing cells up to
  `num_rows * num_cols` are turned off, and the figure gets the suptitle
  `"Boxplot Analysis"` / `"Histogram Analysis"`. -/
def create_subplots (data : DataFrame) (plot_type : String) (num_cols : Int) :
    Except Raised Grid :=
  let numeric_columns := numericColumnNames data
  let num_plots : Int := numeric_columns.length
  if num_cols = 0 then .error ⟨.zeroDivisionError, 0⟩ else
  let num_rows : Int := Int.fdiv (num_plots + num_cols - 1) num_cols
  if num_rows ≤ 0 ∨ num_cols ≤ 0 then .error ⟨.valueError, 1⟩ else
  match axesKind num_rows num_cols, numeric_columns with
  | .scalar, _ :: _ => .error ⟨.typeError, 1⟩
  | .oneD, _ :: _ => .error ⟨.indexError, 1⟩
  | _, cols => .ok (buildGrid cols plot_type num_rows.toNat num_cols.toNat)

/-- C4 — For every well-formed table, the column classifier returns two
column-disjoint sub-tables, each with the table's row count (both as recorded
and per column), each keeping its qualifying columns in the original order
(sublists of the source columns), and together their columns are exactly the
source columns. -/
theorem c4_classifier_partitions (data : DataFrame) (hw : data.WF) :
    ((numeric_data data).cols.map Column.name).Disjoint
      ((non_numeric_data data).cols.map Column.name) ∧
    (numeric_data data).nrows = data.nrows ∧
    (non_numeric_data data).nrows = data.nrows ∧
    (∀ c ∈ (numeric_data data).cols, c.vals.length = data.nrows) ∧
    (∀ c ∈ (non_numeric_data data).cols, c.vals.length = data.nrows) ∧
    (numeric_data data).cols.Sublist data.cols ∧
    (non_numeric_data data).cols.Sublist data.cols ∧
    ((numeric_data data).cols ++ (non_numeric_data data).cols).Perm data.cols := by
  obtain ⟨hlen, hnd⟩ := hw
  refine ⟨?_, rfl, rfl, ?_, ?_, ?_, ?_, ?_⟩
  · intro n hn hn'
    simp only [numeric_data, non_numeric_data, List.mem_map] at hn hn'
    obtain ⟨c₁, hc₁, rfl⟩ := hn
    obtain ⟨c₂, hc₂, hname⟩ := hn'
    have hc₁m := List.mem_of_mem_filter hc₁
    have hc₂m := List.mem_of_mem_filter hc₂
    have : c₂ = c₁ := List.inj_on_of_nodup_map hnd hc₂m hc₁m hname
    subst this
    have h₁ := List.of_mem_filter hc₁
    have h₂ := List.of_mem_filter hc₂
    simp [h₁] at h₂
  · intro c hc
    exact hlen c (List.mem_of_mem_filter hc)
  · intro c hc
    exact hlen c (List.mem_of_mem_filter hc)
  · exact List.filter_sublist data.cols
  · exact List.filter_sublist data.cols
  · exact List.filter_append_perm Column.isNumeric data.cols

/-- Witness for C4: the classifier theorem applied to the concrete frame
`mixedDf`, whose well-formedness is checked by evaluation. -/
theorem c4_classifier_partitions_witness :
    ((numeric_data mixedDf).cols.map Column.name).Disjoint
      ((non_numeric_data mixedDf).cols.map Column.name) ∧
    (numeric_data mixedDf).nrows = mixedDf.nrows ∧
    (non_numeric_data mixedDf).nrows = mixedDf.nrows ∧
    (∀ c ∈ (numeric_data mixedDf).cols, c.vals.length = mixedDf.nrows) ∧
    (∀ c ∈ (non_numeric_data mixedDf).cols, c.vals.length = mixedDf.nrows) ∧
    (numeric_data mixedDf).cols.Sublist mixedDf.cols ∧
    (non_numeric_data mixedDf).cols.Sublist mixedDf.cols ∧
    ((numeric_data mixedDf).cols ++ (non_numeric_data mixedDf).cols).Perm
      mixedDf.cols :=
  c4_classifier_partitions mixedDf (by decide)

/-- A frame with a single numeric column. -/
def ageDf : DataFrame :=
  { nrows := 1
  , cols := [ { name := "age", dtype := .int64, vals := [.num 1] } ] }

/-- C1 — The grid-layout law fails on the code: for the table with one numeric
column and grid width 2 the spec demands a 1-row grid with one populated and
one hidden cell, but `create_subplots` raises `IndexError` while indexing the
squeezed 1-D axes array (after the figure was created) and renders no grid. -/
theorem c1_layout_law_failing_input :
    create_subplots ageDf "boxplot" 2 = .error ⟨.indexError, 1⟩ := by decide

/-- C2 counterexample — at `num_cols = 0` the exception actually raised is
`ZeroDivisionError` from the ceiling-division line, not the specification's
`InvalidConfigError`: the source performs no grid-width validation and defines
no custom exception. -/
theorem c2_invalid_config_counterexample :
    create_subplots ageDf "boxplot" 0 = .error ⟨.zeroDivisionError, 0⟩ ∧
    PyError.zeroDivisionError ≠ PyError.invalidConfigError := by decide

/-- C2 (amended) — For every table and chart kind, calling `create_subplots`
with `num_cols = 0` raises `ZeroDivisionError` (from
`(num_plots + num_cols - 1) // num_cols`) before any figure is created; no
`InvalidConfigError` validation exists, and negative widths fail only inside
`plt.subplots` after a figure has been created. -/
theorem c2_zero_width_raises_before_figure (data : DataFrame)
    (plot_type : String) :
    create_subplots data plot_type 0 = .error ⟨.zeroDivisionError, 0⟩ := by
  simp [create_subplots]

/-- Ceiling-division arithmetic of line 91: with `1 ≤ n ≤ c` the grid has
exactly one row. -/
theorem fdiv_ceil_one {n c : Int} (h1 : 1 ≤ n) (h2 : n ≤ c) :
    Int.fdiv (n + c - 1) c = 1 := by
  have hc : 0 < c := lt_of_lt_of_le h1 h2
  rw [Int.fdiv_eq_ediv _ (le_of_lt hc)]
  have : n + c - 1 = (n - 1) + 1 * c := by ring
  rw [this, Int.add_mul_ediv_right _ _ (ne_of_gt hc),
    Int.ediv_eq_zero_of_lt (by omega) (by omega)]
  ring

/-- C9 — For every table whose numeric-column count `n` satisfies
`1 ≤ n ≤ num_cols`, the grid has one row, the squeezed axes value is a bare
`Axes` (when `num_cols = 1`) or a 1-D array, and `create_subplots` raises
`TypeError` resp. `IndexError` at the two-index axes access instead of
rendering a grid; the failure happens with the figure already created and no
cell populated. -/
theorem c9_one_row_grid_raises (data : DataFrame) (plot_type : String)
    (c : Int) (h1 : 1 ≤ (numericColumnNames data).length)
    (h2 : ((numericColumnNames data).length : Int) ≤ c) :
    create_subplots data plot_type c = .error ⟨.indexError, 1⟩ ∨
    create_subplots data plot_type c = .error ⟨.typeError, 1⟩ := by
  have h1' : (1 : Int) ≤ ((numericColumnNames data).length : Int) := by
    exact_mod_cast h1
  have hc : 0 < c := lt_of_lt_of_le h1' h2
  have hrow : Int.fdiv (((numericColumnNames data).length : Int) + c - 1) c
      = 1 := fdiv_ceil_one h1' h2
  obtain ⟨x, xs, hx⟩ : ∃ x xs, numericColumnNames data = x :: xs := by
    cases hl : numericColumnNames data with
    | nil => rw [hl] at h1; exact absurd h1 (by simp)
    | cons a as => exact ⟨a, as, rfl⟩
  rw [hx] at hrow
  by_cases hone : c = 1
  · right
    subst hone
    simp only [create_subplots, hx, hrow]
    norm_num [axesKind]
  · left
    simp only [create_subplots, hx, hrow]
    have hax : axesKind 1 c = .oneD := by
      simp [axesKind, hone]
    rw [if_neg (by omega), if_neg (by omega)]
    simp only [hax]

/-- Witness for C9: the concrete single-numeric-column frame with grid width
2, where the numeric-column count 1 satisfies `1 ≤ 1 ≤ 2`. -/
theorem c9_one_row_grid_raises_witness :
    create_subplots ageDf "boxplot" 2 = .error ⟨.indexError, 1⟩ ∨
    create_subplots ageDf "boxplot" 2 = .error ⟨.typeError, 1⟩ :=
  c9_one_row_grid_raises ageDf "boxplot" 2 (by decide) (by decide)

/-- The subplot titles of a chart-grid run, in placement order (empty when the
call raised). -/
def gridTitles : Except Raised Grid → List String
  | .error _ => []
  | .ok g => g.populated.map PlotCell.title

/-- Whether every populated cell of a chart-grid run carries the
`str.capitalize`d form of its column name as title (vacuously true for a
raising run). -/
def capitalizedTitles : Except Raised Grid → Bool
  | .error _ => true
  | .ok g => g.populated.all (fun cell => cell.title == pyCapitalize cell.column)

/-- A frame with three numeric columns, one of whose names has two words. -/
def priceDf : DataFrame :=
  { nrows := 2
  , cols :=
      [ { name := "unit price", dtype := .float64, vals := [.num 1, .num 2] }
      , { name := "tax", dtype := .float64, vals := [.num 3, .num 4] }
      , { name := "total", dtype := .float64, vals := [.num 5, .num 6] } ] }

/-- C7 counterexample — in the 3-numeric-column, width-2 grid (a run that
succeeds), the subplot for the column `"unit price"` is titled
`"Unit price"` — Python's `str.capitalize`, which lowercases everything after
the first character — and not the title-cased `"Unit Price"` the claim
demands. -/
theorem c7_title_case_counterexample :
    gridTitles (create_subplots priceDf "boxplot" 2)
      = ["Unit price", "Tax", "Total"] ∧
    pyTitle "unit price" = "Unit Price" ∧
    ("Unit price" : String) ≠ "Unit Price" := by decide

/-- C7 (amended) — For every chart-grid run that renders, each populated
subplot is labeled with its column name passed through Python
`str.capitalize` (first character uppercased, all later characters
lowercased), not through title-casing. -/
theorem c7_titles_are_capitalized (data : DataFrame) (plot_type : String)
    (num_cols : Int) :
    capitalizedTitles (create_subplots data plot_type num_cols) = true := by
  unfold create_subplots
  dsimp only
  split
  · rfl
  split
  · rfl
  split
  · rfl
  · rfl
  · simp only [capitalizedTitles, buildGrid, List.all_eq_true]
    rintro cell hc
    simp only [List.mem_map] at hc
    obtain ⟨p, hp, rfl⟩ := hc
    simp

/-- The numeric value of a cell, `none` for missing (and for the impossible
non-numeric cells of a numeric column). -/
def cellQ : Cell → Option ℚ
  | .num q => some q
  | _ => none

/-- The non-missing numeric values of a column, in row order. -/
def Column.validQ (c : Column) : List ℚ := c.vals.filterMap cellQ

/-- The row pairs where both columns hold a non-missing numeric value — the
observations pandas `nancorr` uses for one cell of the correlation matrix. -/
def validPairs (xs ys : List Cell) : List (ℚ × ℚ) :=
  (xs.zip ys).filterMap (fun p =>
    match cellQ p.1, cellQ p.2 with
    | some a, some b => some (a, b)
    | _, _ => none)

/-- Whether all entries of a list are equal (zero variance); true for `[]`. -/
def allEqQ : List ℚ → Bool
  | [] => true
  | x :: rest => rest.all (fun y => y == x)

/-- Whether a list holds at least two distinct values — exactly the condition
under which its variance is nonzero. -/
def twoDistinct (xs : List ℚ) : Bool := !xs.isEmpty && !allEqQ xs

/-- One cell of `DataFrame.corr()`.  With no valid observation, or when either
column is constant over the valid pairs (zero divisor), pandas yields NaN; a
diagonal cell with a nonzero divisor is exactly 1.0; an off-diagonal value is
a Pearson coefficient, carried symbolically as the list of valid sample pairs
(its float value involves a square root). -/
inductive CorrVal
  | nan
  | one
  | pearson (pairs : List (ℚ × ℚ))
deriving DecidableEq, Repr

def corrCell (ci cj : Column) (diag : Bool) : CorrVal :=
  let pairs := validPairs ci.vals cj.vals
  if pairs.isEmpty then .nan
  else if allEqQ (pairs.map Prod.fst) || allEqQ (pairs.map Prod.snd) then .nan
  else if diag then .one else .pearson pairs

/-- `data.corr()`: the square correlation matrix over the numeric columns,
indexed by column name in both dimensions. -/
def DataFrame.corr (data : DataFrame) : List (String × List (String × CorrVal)) :=
  let nums := data.cols.filter Column.isNumeric
  nums.map (fun ci =>
    (ci.name, nums.map (fun cj => (cj.name, corrCell ci cj (ci.name == cj.name)))))

/-- The rendered heatmap of a successful `create_heatmap` call. -/
structure Heatmap where
  matrix : List (String × List (String × CorrVal))
  title : String
deriving DecidableEq, Repr

/-- `create_heatmap`: select the numeric columns, compute the correlation
matrix, create a figure (`plt.figure`), then render with `sns.heatmap`.  On a
table with zero numeric columns the matrix is 0×0 and seaborn's reduction over
the empty data (`np.nanmin` of a zero-size array) raises `ValueError` — after
the figure was created.  The source defines no `InsufficientDataError` and
performs no column-count check. -/
def create_heatmap (data : DataFrame) : Except Raised Heatmap :=
  let nd := numeric_data data
  let corr_matrix := nd.corr
  if corr_matrix.isEmpty then .error ⟨.valueError, 1⟩
  else .ok { matrix := corr_matrix, title := "Correlation Heatmap" }

/-- A frame with a single non-numeric column. -/
def cityDf : DataFrame :=
  { nrows := 2
  , cols := [ { name := "city", dtype := .obj, vals := [.str "a", .str "b"] } ] }

/-- C3 counterexample — on a table with zero numeric columns `create_heatmap`
raises `ValueError` out of the empty-heatmap rendering (with the figure
already created), not the specification's `InsufficientDataError`, which no
code path produces. -/
theorem c3_insufficient_data_counterexample :
    create_heatmap cityDf = .error ⟨.valueError, 1⟩ ∧
    PyError.valueError ≠ PyError.insufficientDataError := by decide

/-- Zipping a cell list with itself and keeping the rows where both sides are
numeric yields the duplicated valid values. -/
theorem validPairs_self (vals : List Cell) :
    validPairs vals vals = (vals.filterMap cellQ).map (fun q => (q, q)) := by
  induction vals with
  | nil => rfl
  | cons v t ih =>
    cases v <;> simp [validPairs, cellQ, List.filterMap_cons] <;>
      simpa [validPairs] using ih

/-- A diagonal correlation cell is exactly 1.0 when the column has two
distinct non-missing values and NaN otherwise. -/
theorem corrCell_diag (c : Column) :
    corrCell c c true = if twoDistinct c.validQ then .one else .nan := by
  unfold corrCell twoDistinct
  rw [validPairs_self]
  rcases h : c.vals.filterMap cellQ with _ | ⟨x, xs⟩
  · simp [Column.validQ, h]
  · simp only [Column.validQ, h, List.map_map, List.isEmpty_cons]
    have hfst : ((x :: xs).map (fun q : ℚ => (q, q))).map Prod.fst = x :: xs := by
      simp [List.map_map, Function.comp_def]
    have hsnd : ((x :: xs).map (fun q : ℚ => (q, q))).map Prod.snd = x :: xs := by
      simp [List.map_map, Function.comp_def]
    simp only [List.map_map] at hfst hsnd
    rw [hfst, hsnd]
    rcases hall : allEqQ (x :: xs) <;> simp [hall]

/-- C3 (amended) — For every table with at least one numeric column
`create_heatmap` does not raise (the empty-data `ValueError` of the
zero-numeric-column case cannot occur, and no `InsufficientDataError` exists
in the code); when exactly one numeric column is present the heatmap shows the
1×1 matrix whose sole entry is 1.0 if that column has two distinct non-missing
values and NaN otherwise. -/
theorem c3_heatmap_numeric_columns (data : DataFrame)
    (h : data.cols.filter Column.isNumeric ≠ []) :
    (∃ hm, create_heatmap data = .ok hm) ∧
    (∀ c, data.cols.filter Column.isNumeric = [c] →
      create_heatmap data = .ok
        { matrix := [(c.name,
            [(c.name, if twoDistinct c.validQ then .one else .nan)])]
        , title := "Correlation Heatmap" }) := by
  constructor
  · refine ⟨{ matrix := (numeric_data data).corr, title := "Correlation Heatmap" }, ?_⟩
    unfold create_heatmap
    rw [if_neg]
    simp only [DataFrame.corr, numeric_data, List.isEmpty_eq_true, List.map_eq_nil_iff]
    intro hnil
    simp only [List.filter_filter] at hnil
    apply h
    simpa [Column.isNumeric, Bool.and_self] using hnil
  · intro c hc
    have hcc : c ∈ data.cols.filter Column.isNumeric := by
      rw [hc]; exact List.mem_cons_self c []
    have hcn := List.of_mem_filter hcc
    have hm : (numeric_data data).corr
        = [(c.name, [(c.name, corrCell c c (c.name == c.name))])] := by
      simp only [DataFrame.corr, numeric_data]
      rw [hc]
      simp [List.filter_cons, hcn]
    unfold create_heatmap
    dsimp only
    rw [hm]
    simp [corrCell_diag c]

/-- Witness for C3: a concrete single-numeric-column frame; its column has two
distinct values, so the heatmap is the 1×1 matrix holding 1.0. -/
theorem c3_heatmap_numeric_columns_witness :
    (∃ hm, create_heatmap ageDf = .ok hm) ∧
    (∀ c, ageDf.cols.filter Column.isNumeric = [c] →
      create_heatmap ageDf = .ok
        { matrix := [(c.name,
            [(c.name, if twoDistinct c.validQ then .one else .nan)])]
        , title := "Correlation Heatmap" }) :=
  c3_heatmap_numeric_columns ageDf (by decide)

/-- Whether a cell is missing (`isnull`). -/
def cellIsNa : Cell → Bool
  | .na => true
  | _ => false

/-- A float cell of the descriptive-statistics table: NaN, an exact value, or
— for the sample standard deviation — the square root of an exact value,
carried symbolically. -/
inductive StatV
  | nan
  | val (q : ℚ)
  | sqrtVal (q : ℚ)
deriving DecidableEq, Repr

def sumQ (xs : List ℚ) : ℚ := xs.foldr (· + ·) 0

def listMin : List ℚ → ℚ
  | [] => 0
  | x :: xs => xs.foldl min x

def listMax : List ℚ → ℚ
  | [] => 0
  | x :: xs => xs.foldl max x

/-- Sample variance (`ddof = 1`), the square of the std `describe` reports. -/
def sampleVar (xs : List ℚ) : ℚ :=
  let n : ℚ := xs.length
  let m := sumQ xs / n
  sumQ (xs.map (fun x => (x - m) ^ 2)) / (n - 1)

def insertSorted (x : ℚ) : List ℚ → List ℚ
  | [] => [x]
  | y :: ys => if x ≤ y then x :: y :: ys else y :: insertSorted x ys

def sortQ (xs : List ℚ) : List ℚ := xs.foldr insertSorted []

/-- The `p`-quantile with numpy's linear interpolation, as `describe` reports
for the 25th/50th/75th percentiles (callers guarantee a nonempty list). -/
def percentile (xs : List ℚ) (p : ℚ) : ℚ :=
  let s := sortQ xs
  let n := s.length
  let h : ℚ := ((n : ℚ) - 1) * p
  let k : Nat := (⌊h⌋ : Int).toNat
  let lo := s.getD k 0
  let hi := s.getD (k + 1) lo
  lo + (h - (k : ℚ)) * (hi - lo)

/-- The numeric `describe` row after dropping `count`: every statistic of a
column with zero non-missing values is NaN, and the std of a single
observation is NaN. -/
structure NumStats where
  mean : StatV
  std : StatV
  min : StatV
  q25 : StatV
  q50 : StatV
  q75 : StatV
  max : StatV
deriving DecidableEq, Repr

def numDescribe (c : Column) : NumStats :=
  let v := c.validQ
  let n := v.length
  if n = 0 then
    { mean := .nan, std := .nan, min := .nan
    , q25 := .nan, q50 := .nan, q75 := .nan, max := .nan }
  else
    { mean := .val (sumQ v / n)
    , std := if n = 1 then .nan else .sqrtVal (sampleVar v)
    , min := .val (listMin v)
    , q25 := .val (percentile v (1 / 4))
    , q50 := .val (percentile v (1 / 2))
    , q75 := .val (percentile v (3 / 4))
    , max := .val (listMax v) }

/-- The object-describe row after dropping `count` — what `describe` reports
for every column when the frame has no numeric column at all: the number of
distinct non-missing values, the most frequent value and its frequency (ties
resolved toward the earliest distinct value; NaN for an all-missing column). -/
structure ObjStats where
  unique : Nat
  top : Option Cell
  freq : Option Nat
deriving DecidableEq, Repr

def objDescribe (c : Column) : ObjStats :=
  let v := c.vals.filter (fun x => !cellIsNa x)
  let d := v.eraseDups
  match d with
  | [] => { unique := 0, top := none, freq := none }
  | x :: _ =>
    let best := d.foldl
      (fun acc y =>
        let cnt := (v.filter (fun z => z == y)).length
        if cnt > acc.2 then (y, cnt) else acc)
      (x, (v.filter (fun z => z == x)).length)
    { unique := d.length, top := some best.1, freq := some best.2 }

/-- One row of `data.describe().T.drop(columns='count')`: numeric statistics,
or — only when the source frame has no numeric column — object statistics. -/
inductive DescribeRow
  | numeric (s : NumStats)
  | objectDesc (o : ObjStats)
deriving DecidableEq, Repr

/-- `data_count`: `{column: [data.shape[0]]}` — the table-wide row count for
every column, missing values included. -/
def data_count (data : DataFrame) : List (String × Nat) :=
  data.cols.map (fun c => (c.name, data.nrows))

/-- `data_isnull`: the per-column missing-value counts. -/
def data_isnull (data : DataFrame) : List (String × Nat) :=
  data.cols.map (fun c => (c.name, (c.vals.filter cellIsNa).length))

/-- `data_type`: the per-column dtypes. -/
def data_type (data : DataFrame) : List (String × Dtype) :=
  data.cols.map (fun c => (c.name, c.dtype))

/-- `data_describe` = `data.describe().T.drop(columns='count')`.  `describe`
raises `ValueError` on a frame without columns; it covers exactly the numeric
columns when at least one exists, and falls back to object statistics over all
columns otherwise. -/
def data_describe (data : DataFrame) :
    Except Raised (List (String × DescribeRow)) :=
  if data.cols.isEmpty then .error ⟨.valueError, 0⟩ else
  let nums := data.cols.filter Column.isNumeric
  if nums.isEmpty then
    .ok (data.cols.map (fun c => (c.name, .objectDesc (objDescribe c))))
  else
    .ok (nums.map (fun c => (c.name, .numeric (numDescribe c))))

/-- One row of the merged statistics report.  `data_type` and `null_count`
are written by pandas index alignment (a lookup by column name), and `stats`
holds the describe row the left join found for the column — `none` when the
column is absent from the describe table. -/
structure ReportRow where
  entry_count : Nat
  data_type : Option Dtype
  null_count : Option Nat
  stats : Option DescribeRow
deriving DecidableEq, Repr

/-- `stats_report` on the loaded table (the source's `stats_report(csv)` first
reads the CSV with `data_input`; the report is a function of the resulting
frame, which we take as input):
`df1` is the transposed `data_count` frame with `data_type` and `null_count`
assigned by index alignment, `df2` is `data_describe`, and the result is
`pd.merge(df1, df2, left_index=True, right_index=True, how='left')` — a left
join on column name. -/
def stats_report (data : DataFrame) :
    Except Raised (List (String × ReportRow)) :=
  match data_describe data with
  | .error e => .error e
  | .ok df2 =>
    let df1 := (data_count data).map (fun p =>
      (p.1, (p.2, (data_type data).lookup p.1, (data_isnull data).lookup p.1)))
    .ok (df1.map (fun p =>
      (p.1,
        { entry_count := p.2.1
        , data_type := p.2.2.1
        , null_count := p.2.2.2
        , stats := df2.lookup p.1 })))

/-- `describe` succeeds on every frame that has at least one column. -/
theorem data_describe_ok (data : DataFrame) (h : data.cols ≠ []) :
    ∃ df2, data_describe data = .ok df2 := by
  unfold data_describe
  rw [if_neg (by simpa using h)]
  dsimp only
  split
  · exact ⟨_, rfl⟩
  · exact ⟨_, rfl⟩

/-- Looking a column's name up in a name-keyed table built over columns with
`Nodup` names finds that column's entry. -/
theorem lookup_map_name {β : Type} (f : Column → β) {cols : List Column}
    (hnd : (cols.map Column.name).Nodup) {c : Column} (hc : c ∈ cols) :
    (cols.map (fun d => (d.name, f d))).lookup c.name = some (f c) := by
  induction cols with
  | nil => cases hc
  | cons d t ih =>
    have hnd' := List.nodup_cons.mp hnd
    rcases List.mem_cons.mp hc with rfl | hct
    · simp [List.lookup]
    · have hne : (c.name == d.name) = false := by
        refine beq_eq_false_iff_ne.mpr (fun he => hnd'.1 ?_)
        exact he ▸ List.mem_map_of_mem Column.name hct
      simp only [List.map_cons, List.lookup, hne]
      exact ih hnd'.2 hct

/-- C5 — For every well-formed table with at least one column (every table a
CSV load produces), `stats_report` succeeds with exactly one row per source
column, in the source column order, and `entry_count` of every row is the
table-wide row count — in particular also for all-missing columns. -/
theorem c5_report_one_row_per_column (data : DataFrame) (_hw : data.WF)
    (h : data.cols ≠ []) :
    ∃ r, stats_report data = .ok r ∧
      r.map Prod.fst = data.cols.map Column.name ∧
      ∀ p ∈ r, (Prod.snd p).entry_count = data.nrows := by
  obtain ⟨df2, hdf2⟩ := data_describe_ok data h
  unfold stats_report
  rw [hdf2]
  refine ⟨_, rfl, ?_, ?_⟩
  · simp [data_count, List.map_map, Function.comp_def]
  · intro p hp
    simp only [data_count, List.map_map, List.mem_map, Function.comp_def] at hp
    obtain ⟨c, hc, rfl⟩ := hp
    rfl

/-- Witness for C5: the report of the concrete frame `mixedDf` (which contains
an all-missing column). -/
theorem c5_report_one_row_per_column_witness :
    ∃ r, stats_report mixedDf = .ok r ∧
      r.map Prod.fst = mixedDf.cols.map Column.name ∧
      ∀ p ∈ r, (Prod.snd p).entry_count = mixedDf.nrows :=
  c5_report_one_row_per_column mixedDf (by decide) (by decide)

/-- C6 counterexample — on a table whose columns are all non-numeric,
`describe` falls back to object statistics, so the left join attaches
non-null `unique`/`top`/`freq` data to the non-numeric column instead of the
null numeric fields the claim asserts. -/
theorem c6_object_fallback_counterexample :
    stats_report cityDf = .ok
      [("city",
        { entry_count := 2
        , data_type := some .obj
        , null_count := some 0
        , stats := some (.objectDesc
            { unique := 2, top := some (.str "a"), freq := some 1 }) })] ∧
    some (DescribeRow.objectDesc
        { unique := 2, top := some (.str "a"), freq := some 1 })
      ≠ (none : Option DescribeRow) := by decide

/-- C6 (amended) — For every well-formed table with at least one numeric
column, the statistics report is the left join of the count/type/null table
against the numeric describe table on column name: every source column
appears exactly once (in order, with no duplicate), every non-numeric column
carries `none` for the whole block of numeric-only fields (the join found no
describe row), and every numeric column carries its describe row.  (With zero
numeric columns, `describe` degenerates to object statistics and the claim
fails, as the counterexample shows.) -/
theorem c6_left_join_semantics (data : DataFrame) (hw : data.WF)
    (hnum : data.cols.filter Column.isNumeric ≠ []) :
    ∃ r, stats_report data = .ok r ∧
      r.map Prod.fst = data.cols.map Column.name ∧
      (r.map Prod.fst).Nodup ∧
      (∀ c ∈ data.cols, c.isNumeric = false →
        r.lookup c.name = some
          { entry_count := data.nrows
          , data_type := some c.dtype
          , null_count := some ((c.vals.filter cellIsNa).length)
          , stats := none }) ∧
      (∀ c ∈ data.cols, c.isNumeric = true →
        r.lookup c.name = some
          { entry_count := data.nrows
          , data_type := some c.dtype
          , null_count := some ((c.vals.filter cellIsNa).length)
          , stats := some (.numeric (numDescribe c)) }) := by
  have hcols : data.cols ≠ [] := by
    intro hnil
    exact hnum (by simp [hnil])
  have hdf2 : data_describe data = .ok
      ((data.cols.filter Column.isNumeric).map
        (fun c => (c.name, .numeric (numDescribe c)))) := by
    unfold data_describe
    rw [if_neg (by simpa using hcols)]
    dsimp only
    rw [if_neg (by simpa using hnum)]
  have hndf : ((data.cols.filter Column.isNumeric).map Column.name).Nodup :=
    List.Nodup.sublist (List.Sublist.map Column.name
      (List.filter_sublist data.cols)) hw.2
  unfold stats_report
  rw [hdf2]
  have hr : ((data_count data).map (fun p =>
      (p.1, (p.2, (data_type data).lookup p.1, (data_isnull data).lookup p.1)))).map
        (fun p =>
          (p.1,
            ({ entry_count := p.2.1
             , data_type := p.2.2.1
             , null_count := p.2.2.2
             , stats := ((data.cols.filter Column.isNumeric).map
                 (fun c => (c.name, DescribeRow.numeric (numDescribe c)))).lookup
                 p.1 } : ReportRow)))
      = data.cols.map (fun c =>
          (c.name,
            ({ entry_count := data.nrows
             , data_type := (data_type data).lookup c.name
             , null_count := (data_isnull data).lookup c.name
             , stats := ((data.cols.filter Column.isNumeric).map
                 (fun c => (c.name, DescribeRow.numeric (numDescribe c)))).lookup
                 c.name } : ReportRow))) := by
    simp [data_count, List.map_map, Function.comp_def]
  refine ⟨_, rfl, ?_, ?_, ?_, ?_⟩
  · rw [hr]
    simp [List.map_map, Function.comp_def]
  · rw [hr]
    simpa [List.map_map, Function.comp_def] using hw.2
  · intro c hc hcn
    rw [hr, lookup_map_name _ hw.2 hc]
    simp only [data_type, data_isnull]
    rw [lookup_map_name (fun d => d.dtype) hw.2 hc,
      lookup_map_name (fun d => (d.vals.filter cellIsNa).length) hw.2 hc]
    have hnone : ((data.cols.filter Column.isNumeric).map
        (fun c => (c.name, DescribeRow.numeric (numDescribe c)))).lookup c.name
        = none := by
      rw [List.lookup_eq_none_iff]
      rintro p hp
      simp only [List.mem_map] at hp
      obtain ⟨d, hd, rfl⟩ := hp
      have hdm := List.mem_of_mem_filter hd
      have hdn := List.of_mem_filter hd
      refine bne_iff_ne.mpr (fun he => ?_)
      have : c = d := List.inj_on_of_nodup_map hw.2 hc hdm he
      rw [← this] at hdn
      rw [hcn] at hdn
      cases hdn
    rw [hnone]
  · intro c hc hcn
    rw [hr, lookup_map_name _ hw.2 hc]
    simp only [data_type, data_isnull]
    rw [lookup_map_name (fun d => d.dtype) hw.2 hc,
      lookup_map_name (fun d => (d.vals.filter cellIsNa).length) hw.2 hc]
    have hcf : c ∈ data.cols.filter Column.isNumeric :=
      List.mem_filter.mpr ⟨hc, hcn⟩
    rw [lookup_map_name (fun d => DescribeRow.numeric (numDescribe d)) hndf hcf]

/-- Witness for C6: the amended left-join theorem applied to the concrete
frame `mixedDf`, which has both numeric and non-numeric columns. -/
theorem c6_left_join_semantics_witness :
    ∃ r, stats_report mixedDf = .ok r ∧
      r.map Prod.fst = mixedDf.cols.map Column.name ∧
      (r.map Prod.fst).Nodup ∧
      (∀ c ∈ mixedDf.cols, c.isNumeric = false →
        r.lookup c.name = some
          { entry_count := mixedDf.nrows
          , data_type := some c.dtype
          , null_count := some ((c.vals.filter cellIsNa).length)
          , stats := none }) ∧
      (∀ c ∈ mixedDf.cols, c.isNumeric = true →
        r.lookup c.name = some
          { entry_count := mixedDf.nrows
          , data_type := some c.dtype
          , null_count := some ((c.vals.filter cellIsNa).length)
          , stats := some (.numeric (numDescribe c)) }) :=
  c6_left_join_semantics mixedDf (by decide) (by decide)

/-- The process-wide pandas option state the driver touches. -/
structure PdState where
  use_inf_as_na : Bool
deriving DecidableEq, Repr

/-- Outcome of the driver's plotting sequence: either all three renders, or
the first uncaught exception, which propagates (the `with` block catches
nothing but warnings). -/
inductive RunOutcome
  | completed (box hist : Grid) (heat : Heatmap)
  | raised (e : Raised)
deriving DecidableEq, Repr

/-- The driver body after `set_option`: box-plot grid, then histogram grid,
then heatmap, stopping at the first exception. -/
def analysis_core (data : DataFrame) (num_cols : Int) : RunOutcome :=
  match create_subplots data "boxplot" num_cols with
  | .error e => .raised e
  | .ok box =>
    match create_subplots data "histplot" num_cols with
    | .error e => .raised e
    | .ok hist =>
      match create_heatmap data with
      | .error e => .raised e
      | .ok heat => .completed box hist heat

/-- The advisory `RuntimeWarning`s the numeric libraries emit during the run
(statistics over empty slices): one per all-missing numeric column.  Warnings
are a side channel: they carry no result. -/
def advisoryWarnings (data : DataFrame) : List String :=
  ((numeric_data data).cols.filter (fun c => c.validQ.isEmpty)).map
    (fun c => "Mean of empty slice: " ++ c.name)

/-- What a driver run leaves behind: the pandas option state after the call,
the computed outcome, and the warnings that reached the user. -/
structure DriverResult where
  finalState : PdState
  outcome : RunOutcome
  shownWarnings : List String
deriving DecidableEq, Repr

/-- The driver body run under a given warning filter.  `suppress = true`
models `warnings.catch_warnings()` + `simplefilter('ignore')`: emitted
warnings are dropped from the visible output; `suppress = false` is the same
body with the wrapper removed (the spec's comparison run).  In both runs
`pd.set_option('mode.use_inf_as_na', True)` executes first and nothing
restores the previous option value afterwards. -/
def run_driver (suppress : Bool) (st : PdState) (data : DataFrame)
    (num_cols : Int) : DriverResult :=
  let _ := st
  { finalState := { use_inf_as_na := true }
  , outcome := analysis_core data num_cols
  , shownWarnings := if suppress then [] else advisoryWarnings data }

/-- `initial_analysis` as written: the whole sequence inside the
warning-suppression wrapper. -/
def initial_analysis (st : PdState) (data : DataFrame) (num_cols : Int) :
    DriverResult :=
  run_driver true st data num_cols

/-- The same sequence with the warning-suppression wrapper removed — the
reference run of the specification's two-run equivalence. -/
def initial_analysis_unsuppressed (st : PdState) (data : DataFrame)
    (num_cols : Int) : DriverResult :=
  run_driver false st data num_cols

/-- C8 — For every starting option state, loaded table and grid width, the
warning-suppression wrapper changes no computed result: the wrapped driver's
outcome (each grid, the heatmap, or the propagated exception) and its final
pandas state equal those of the unwrapped run; only the warnings shown to the
user differ. -/
theorem c8_wrapper_preserves_results (st : PdState) (data : DataFrame)
    (num_cols : Int) :
    (initial_analysis st data num_cols).outcome
      = (initial_analysis_unsuppressed st data num_cols).outcome ∧
    (initial_analysis st data num_cols).finalState
      = (initial_analysis_unsuppressed st data num_cols).finalState := by
  exact ⟨rfl, rfl⟩

/-- C10 — After every driver call, whatever the prior option state, the
process-wide `mode.use_inf_as_na` option is left set to `True`: the driver
mutates the ambient state and never restores the caller's value. -/
theorem c10_option_left_mutated (st : PdState) (data : DataFrame)
    (num_cols : Int) :
    (initial_analysis st data num_cols).finalState.use_inf_as_na = true := rfl

end FirstGlance
